import Mathlib

/-!
Shallow embedding of the KrishiMitra backend (`src/backend/server.py`),
covering the freshness-gated external data cache (`get_weather`,
`get_soil_data`) and the crop-recommendation generator
(`generate_crop_recommendations`).

Modelling conventions:
- Timestamps (`datetime.utcnow()`) are integers (seconds); `timedelta(hours=1)`
  is `3600` and `timedelta(hours=6)` is `21600`.  The single parameter `now`
  stands for the wall-clock time of the request.
- Python numbers (floats) are modelled as rationals `ℚ`.  The numeric
  comparisons the code performs are exact at every value the claims exercise,
  so the float/rational gap is immaterial here.
- A Mongo collection is a list of documents; `find_one(filter)` is
  `List.find?` (well-defined under the one-record-per-key invariant) and
  `replace_one(filter, doc, upsert=True)` replaces the first matching
  document or appends the new one when no document matches.
- An external fetcher (`fetch_weather_data`, `fetch_soil_data`) returns the
  provider's JSON dict, or `{}` on any provider error; an empty dict is falsy
  in Python, so the fetch result is modelled as an `Option`: `none` is the
  empty/failed result, `some r` a non-empty response.  The third component of
  each handler's result counts how many times the fetcher was invoked.
- `raise HTTPException(...)` inside the handler's `try` block is an ordinary
  Python exception, so it is caught by the handler's own blanket
  `except Exception` clause, which re-raises `HTTPException(500, ...)`.
  The `*_try` functions model the `try` body, and the outer functions model
  the body together with that `except` clause.
-/

namespace KrishiMitra

/-- A JSON object as stored in a payload: association list from string keys
to opaque (string-modelled) values.  The cache never inspects the values. -/
abbrev Dict := List (String × String)

/-- Non-empty response of `fetch_weather_data` (Visual Crossing JSON), with
the two fields `get_weather` reads already extracted: `currentConditions` is
`weather_data.get("currentConditions", {})` and `days` is
`weather_data.get("days", [])`. -/
structure RawWeather where
  currentConditions : Dict
  days : List Dict
deriving DecidableEq

/-- Non-empty response of `fetch_soil_data` (Agromonitoring JSON).  Each
field is `none` when the corresponding key is absent from the dict (the
handler then applies the `.get` default). -/
structure RawSoil where
  t0 : Option ℚ
  t10 : Option ℚ
  moisture : Option ℚ
deriving DecidableEq

/-- `WeatherData` pydantic model: one document of the `db.weather`
collection, keyed by `city`. -/
structure WeatherData where
  city : String
  current : Dict
  forecast : List Dict
  updated_at : Int
deriving DecidableEq

/-- `SoilData` pydantic model: one document of the `db.soil` collection,
keyed by `polygon_id`.  `ph` defaults to `6.5` (the handler never passes
it). -/
structure SoilData where
  polygon_id : String
  temperature_surface : ℚ
  temperature_10cm : ℚ
  moisture : ℚ
  ph : ℚ
  updated_at : Int
deriving DecidableEq

/-- `timedelta(hours=1)` in seconds: cache TTL of the weather collection. -/
def weatherTTL : Int := 3600

/-- `timedelta(hours=6)` in seconds: cache TTL of the soil collection. -/
def soilTTL : Int := 21600

/-- `collection.replace_one(filter, doc, upsert=True)`: replace the first
document matching the filter, or insert `doc` when none matches. -/
def replace_one {α : Type} (p : α → Bool) (doc : α) : List α → List α
  | [] => [doc]
  | x :: xs => if p x then doc :: xs else x :: replace_one p doc xs

/-- Outcome of a route handler: a JSON document, or an `HTTPException`
with a status code and a detail string. -/
inductive Resp (α : Type) where
  | ok (doc : α)
  | httpError (status : Nat) (detail : String)
deriving DecidableEq

/-- The `try` body of `get_weather(city)` (server.py lines 339-367).
Reads the cache with filter
`{"city": city, "updated_at": {"$gte": now - timedelta(hours=1)}}`;
on a miss invokes the fetcher (result `fetched`), and on a non-empty
response builds the `WeatherData` document (`forecast` is `days[:7]`) and
upserts it with `replace_one({"city": city}, doc, upsert=True)`; on an
empty response raises `HTTPException(404, "Weather data not found")`.
Returns (response, weather collection after the call, fetcher calls). -/
def get_weather_try (city : String) (now : Int) (fetched : Option RawWeather)
    (weather : List WeatherData) : Resp WeatherData × List WeatherData × Nat :=
  match weather.find? (fun r => r.city == city && decide (now - weatherTTL ≤ r.updated_at)) with
  | some cached => (.ok cached, weather, 0)
  | none =>
    match fetched with
    | some w =>
      let weather_doc : WeatherData :=
        { city := city, current := w.currentConditions,
          forecast := w.days.take 7, updated_at := now }
      (.ok weather_doc,
       replace_one (fun r => r.city == city) weather_doc weather, 1)
    | none => (.httpError 404 "Weather data not found", weather, 1)

/-- `get_weather(city)` as observed by an HTTP client: the `try` body wrapped
in `except Exception: raise HTTPException(500, "Failed to fetch weather data")`.
`HTTPException` subclasses `Exception`, so the 404 raised inside the `try`
block is caught here and replaced by the 500. -/
def get_weather (city : String) (now : Int) (fetched : Option RawWeather)
    (weather : List WeatherData) : Resp WeatherData × List WeatherData × Nat :=
  match get_weather_try city now fetched weather with
  | (.httpError _ _, s, n) => (.httpError 500 "Failed to fetch weather data", s, n)
  | r => r

/-- The `try` body of `get_soil_data(polygon_id)` (server.py lines 376-405).
Cache filter `{"polygon_id": polygon_id, "updated_at": {"$gte": now - timedelta(hours=6)}}`;
on a miss invokes the fetcher; on a non-empty response builds the `SoilData`
document (`t0`/`t10` default to 300 then are converted from Kelvin to
Celsius, `moisture` defaults to 0.2, `ph` to 6.5) and upserts it; on an
empty response raises `HTTPException(404, "Soil data not found")`. -/
def get_soil_data_try (polygon_id : String) (now : Int) (fetched : Option RawSoil)
    (soil : List SoilData) : Resp SoilData × List SoilData × Nat :=
  match soil.find? (fun r => r.polygon_id == polygon_id && decide (now - soilTTL ≤ r.updated_at)) with
  | some cached => (.ok cached, soil, 0)
  | none =>
    match fetched with
    | some w =>
      let soil_doc : SoilData :=
        { polygon_id := polygon_id,
          temperature_surface := w.t0.getD 300 - 273.15,
          temperature_10cm := w.t10.getD 300 - 273.15,
          moisture := w.moisture.getD 0.2,
          ph := 6.5, updated_at := now }
      (.ok soil_doc,
       replace_one (fun r => r.polygon_id == polygon_id) soil_doc soil, 1)
    | none => (.httpError 404 "Soil data not found", soil, 1)

/-- `get_soil_data(polygon_id)` as observed by an HTTP client: the `try`
body wrapped in `except Exception: raise HTTPException(500, "Failed to fetch soil data")`,
which also catches the 404 raised inside the `try` block. -/
def get_soil_data (polygon_id : String) (now : Int) (fetched : Option RawSoil)
    (soil : List SoilData) : Resp SoilData × List SoilData × Nat :=
  match get_soil_data_try polygon_id now fetched soil with
  | (.httpError _ _, s, n) => (.httpError 500 "Failed to fetch soil data", s, n)
  | r => r

/-- `CropRecommendation` pydantic model. -/
structure CropRecommendation where
  crop_name : String
  confidence_score : ℚ
  yield_forecast : ℚ
  profit_estimate : ℚ
  reasons : List String
  growing_season : String
  water_requirement : String
  soil_suitability : String
deriving DecidableEq

/-- One entry of the static `crops_db` table inside
`generate_crop_recommendations` (server.py lines 191-237). -/
structure CropInfo where
  name : String
  temp_min : ℚ
  temp_max : ℚ
  moisture_req : String
  ph_min : ℚ
  ph_max : ℚ
  season : String
  yield_per_acre : ℚ
  price_per_kg : ℚ
deriving DecidableEq

/-- The static crop table (server.py lines 191-237); `temp_range` and
`ph_range` pairs are split into min/max fields. -/
def crops_db : List CropInfo :=
  [ { name := "Rice", temp_min := 20, temp_max := 35, moisture_req := "high",
      ph_min := 5.5, ph_max := 7.0, season := "Kharif",
      yield_per_acre := 25, price_per_kg := 25 },
    { name := "Wheat", temp_min := 15, temp_max := 25, moisture_req := "medium",
      ph_min := 6.0, ph_max := 7.5, season := "Rabi",
      yield_per_acre := 20, price_per_kg := 22 },
    { name := "Cotton", temp_min := 21, temp_max := 30, moisture_req := "medium",
      ph_min := 6.0, ph_max := 8.0, season := "Kharif",
      yield_per_acre := 15, price_per_kg := 45 },
    { name := "Sugarcane", temp_min := 20, temp_max := 30, moisture_req := "high",
      ph_min := 6.0, ph_max := 7.5, season := "Kharif",
      yield_per_acre := 400, price_per_kg := 3 },
    { name := "Maize", temp_min := 18, temp_max := 27, moisture_req := "medium",
      ph_min := 6.0, ph_max := 7.0, season := "Kharif/Rabi",
      yield_per_acre := 18, price_per_kg := 18 } ]

/-- One entry of the provider's `"days"` list, with the only field the
generator reads: `temp` is `none` when the day dict has no `"temp"` key
(the code then applies the `.get` default 25). -/
structure DayEntry where
  temp : Option ℚ
deriving DecidableEq

/-- Non-empty (truthy) `weather_data` dict as read by
`generate_crop_recommendations`: `days = none` models a dict without the
`"days"` key. -/
structure WeatherDict where
  days : Option (List DayEntry)
deriving DecidableEq

/-- Non-empty (truthy) `soil_data` dict as read by
`generate_crop_recommendations`: `moisture = none` models a dict without the
`"moisture"` key. -/
structure SoilDict where
  moisture : Option ℚ
deriving DecidableEq

/-- `current_temp` extraction (server.py lines 239-242).  The dict argument
is `none` when `weather_data` is falsy (empty dict).  When the `"days"` key
is present but maps to the empty list, `weather_data["days"][0]` raises an
`IndexError`; that is modelled as `none` (no value is produced and the
exception propagates out of `generate_crop_recommendations`). -/
def current_temp_of (weather_data : Option WeatherDict) : Option ℚ :=
  match weather_data with
  | some { days := some [] } => none
  | some { days := some (d :: _) } => some (d.temp.getD 25)
  | some { days := none } => some 25
  | none => some 25

/-- `soil_moisture` extraction (server.py line 245):
`soil_data.get("moisture", 0.2) if soil_data else 0.2`. -/
def soil_moisture_of (soil_data : Option SoilDict) : ℚ :=
  match soil_data with
  | some s => s.moisture.getD 0.2
  | none => 0.2

/-- The `confidence` accumulator of the loop body of
`generate_crop_recommendations` for one crop (server.py lines 248-263):
base confidence 0.7, `+= 0.2` when the temperature lies in the crop's
range, then `+= 0.1` when the `if`/`elif` moisture band matches. -/
def cropConfidence (current_temp soil_moisture : ℚ) (crop : CropInfo) : ℚ :=
  let afterTemp : ℚ :=
    if crop.temp_min ≤ current_temp ∧ current_temp ≤ crop.temp_max then 0.7 + 0.2
    else 0.7
  if crop.moisture_req == "high" ∧ soil_moisture > 0.3 then afterTemp + 0.1
  else if crop.moisture_req == "medium" ∧ 0.15 ≤ soil_moisture ∧ soil_moisture ≤ 0.4 then
    afterTemp + 0.1
  else afterTemp

/-- The `reasons` accumulator of the same loop body: one entry appended for
each bonus granted, under exactly the conditions of `cropConfidence`. -/
def cropReasons (current_temp soil_moisture : ℚ) (crop : CropInfo) : List String :=
  let afterTemp : List String :=
    if crop.temp_min ≤ current_temp ∧ current_temp ≤ crop.temp_max then
      ["Temperature (" ++ toString current_temp ++ "°C) is ideal for " ++ crop.name]
    else []
  if crop.moisture_req == "high" ∧ soil_moisture > 0.3 then
    afterTemp ++ ["High soil moisture suitable for water-loving crops"]
  else if crop.moisture_req == "medium" ∧ 0.15 ≤ soil_moisture ∧ soil_moisture ≤ 0.4 then
    afterTemp ++ ["Moderate soil moisture ideal for balanced growth"]
  else afterTemp

/-- Descending order on recommendations used by
`recommendations.sort(key=lambda x: x.confidence_score, reverse=True)`. -/
def confDesc (a b : CropRecommendation) : Prop :=
  b.confidence_score ≤ a.confidence_score

instance : DecidableRel confDesc := fun a b =>
  inferInstanceAs (Decidable (b.confidence_score ≤ a.confidence_score))

/-- The `CropRecommendation(...)` constructor call of the loop body
(server.py lines 267-276): the stored confidence is capped at 1.0
(`min(confidence, 1.0)`), the profit estimate is yield times price. -/
def cropRec (current_temp soil_moisture : ℚ) (crop : CropInfo) : CropRecommendation :=
  { crop_name := crop.name,
    confidence_score := min (cropConfidence current_temp soil_moisture crop) 1,
    yield_forecast := crop.yield_per_acre,
    profit_estimate := crop.yield_per_acre * crop.price_per_kg,
    reasons := cropReasons current_temp soil_moisture crop,
    growing_season := crop.season,
    water_requirement := crop.moisture_req,
    soil_suitability := "Suitable" }

/-- Core of `generate_crop_recommendations` once `current_temp` and
`soil_moisture` are established (server.py lines 247-280): score every crop
of the static table, keep those with `confidence > 0.6`, sort by confidence
score in descending order (Python's sort is stable, as is
`List.insertionSort`, so the two produce the same list) and return the
first 5. -/
def recommendations_for (current_temp soil_moisture : ℚ) : List CropRecommendation :=
  let recommendations := crops_db.filterMap (fun crop =>
    if cropConfidence current_temp soil_moisture crop > 0.6 then
      some (cropRec current_temp soil_moisture crop)
    else none)
  (List.insertionSort confDesc recommendations).take 5

/-- `generate_crop_recommendations(weather_data, soil_data, location)`
(server.py lines 186-280).  `location` is accepted and ignored, as in the
source.  The result is `none` exactly when the extraction of `current_temp`
raises an `IndexError` (present-but-empty `"days"` list). -/
def generate_crop_recommendations (weather_data : Option WeatherDict)
    (soil_data : Option SoilDict) (location : String) :
    Option (List CropRecommendation) :=
  match current_temp_of weather_data with
  | none => none
  | some current_temp =>
      some (recommendations_for current_temp (soil_moisture_of soil_data))

/-! ### Generic lemmas about `find?` and `replace_one` -/

section ListLemmas

variable {α : Type}

/-- A `find?` result that also satisfies a second test is found unchanged by
the conjunction of the two tests (earlier elements fail the first test). -/
theorem find?_and_of_find? (p q : α → Bool) {l : List α} {r : α}
    (h : l.find? p = some r) (hq : q r = true) :
    l.find? (fun x => p x && q x) = some r := by
  induction l with
  | nil => simp at h
  | cons x xs ih =>
    by_cases hp : p x = true
    · rw [List.find?_cons_of_pos _ hp] at h
      injection h with h
      subst h
      exact List.find?_cons_of_pos _ (by simp [hp, hq])
    · rw [List.find?_cons_of_neg _ hp] at h
      exact (List.find?_cons_of_neg _ (by simp [hp])).trans (ih h)

/-- Every element of `replace_one p doc l` is `doc` or an element of `l`. -/
theorem mem_replace_one (p : α → Bool) (doc : α) {l : List α} {y : α}
    (hy : y ∈ replace_one p doc l) : y = doc ∨ y ∈ l := by
  induction l with
  | nil => simpa [replace_one] using hy
  | cons x xs ih =>
    by_cases hp : p x = true
    · simp only [replace_one, if_pos hp, List.mem_cons] at hy
      rcases hy with hy | hy
      · exact Or.inl hy
      · exact Or.inr (List.mem_cons_of_mem _ hy)
    · simp only [replace_one, if_neg hp, List.mem_cons] at hy
      rcases hy with hy | hy
      · exact Or.inr (hy ▸ List.mem_cons_self x xs)
      · rcases ih hy with hy | hy
        · exact Or.inl hy
        · exact Or.inr (List.mem_cons_of_mem _ hy)

/-- After an upsert, `find?` with any test that implies the upsert filter and
holds of the new document finds exactly the new document. -/
theorem find?_replace_one (p q : α → Bool) (doc : α) (l : List α)
    (hq : q doc = true) (himp : ∀ x, q x = true → p x = true) :
    (replace_one p doc l).find? q = some doc := by
  induction l with
  | nil => simp [replace_one, List.find?_cons_of_pos _ hq]
  | cons x xs ih =>
    by_cases hp : p x = true
    · simp only [replace_one, if_pos hp]
      exact List.find?_cons_of_pos _ hq
    · have hqx : ¬ q x = true := fun hqx => hp (himp x hqx)
      simp only [replace_one, if_neg hp]
      exact (List.find?_cons_of_neg _ hqx).trans ih

/-- An upsert whose document carries the filtered key preserves
key-uniqueness of the store. -/
theorem pairwise_key_replace_one (key : α → String) (k : String) (doc : α)
    (hdoc : key doc = k) {l : List α}
    (h : l.Pairwise (fun a b => key a ≠ key b)) :
    (replace_one (fun x => key x == k) doc l).Pairwise
      (fun a b => key a ≠ key b) := by
  induction l with
  | nil => simp [replace_one]
  | cons x xs ih =>
    rw [List.pairwise_cons] at h
    obtain ⟨hx, hxs⟩ := h
    by_cases hp : (key x == k) = true
    · simp only [replace_one, if_pos hp, List.pairwise_cons]
      refine ⟨fun y hy => ?_, hxs⟩
      rw [hdoc, ← beq_iff_eq.mp hp]
      exact hx y hy
    · simp only [replace_one, if_neg hp, List.pairwise_cons]
      refine ⟨fun y hy => ?_, ih hxs⟩
      rcases mem_replace_one _ _ hy with rfl | hy
      · rw [hdoc]
        exact fun hxk => hp (beq_iff_eq.mpr hxk)
      · exact hx y hy

/-- If every element of the store with the upserted key has a timestamp at
most that of the new document, the first record found for any key can only
get a larger-or-equal timestamp through the upsert. -/
theorem find?_key_mono_replace_one (key : α → String) (upd : α → Int)
    (k city : String) (doc : α) {l : List α} (hdoc : key doc = k)
    (hall : ∀ x ∈ l, key x = k → upd x ≤ upd doc) {r r' : α}
    (h : l.find? (fun x => key x == city) = some r)
    (h' : (replace_one (fun x => key x == k) doc l).find?
      (fun x => key x == city) = some r') :
    upd r ≤ upd r' := by
  induction l with
  | nil => simp at h
  | cons x xs ih =>
    by_cases hp : (key x == k) = true
    · simp only [replace_one, if_pos hp] at h'
      by_cases hc : (key x == city) = true
      · rw [@List.find?_cons_of_pos α (fun y => key y == city) x xs hc] at h
        injection h with h
        have hdc : (key doc == city) = true := by
          rw [hdoc, ← beq_iff_eq.mp hp]
          exact hc
        rw [@List.find?_cons_of_pos α (fun y => key y == city) doc xs hdc] at h'
        injection h' with h'
        subst h
        subst h'
        exact hall x (List.mem_cons_self x xs) (beq_iff_eq.mp hp)
      · rw [@List.find?_cons_of_neg α (fun y => key y == city) x xs hc] at h
        have hdc : ¬ (key doc == city) = true := by
          rw [hdoc, ← beq_iff_eq.mp hp]
          exact hc
        rw [@List.find?_cons_of_neg α (fun y => key y == city) doc xs hdc] at h'
        rw [h] at h'
        injection h' with h'
        subst h'
        exact le_refl _
    · simp only [replace_one, if_neg hp] at h'
      by_cases hc : (key x == city) = true
      · rw [@List.find?_cons_of_pos α (fun y => key y == city) x xs hc] at h
        rw [@List.find?_cons_of_pos α (fun y => key y == city) x
          (replace_one (fun y => key y == k) doc xs) hc] at h'
        injection h with h
        injection h' with h'
        subst h
        subst h'
        exact le_refl _
      · rw [@List.find?_cons_of_neg α (fun y => key y == city) x xs hc] at h
        rw [@List.find?_cons_of_neg α (fun y => key y == city) x
          (replace_one (fun y => key y == k) doc xs) hc] at h'
        exact ih (fun y hy => hall y (List.mem_cons_of_mem _ hy)) h h'

/-- An upsert never makes a previously findable record unfindable, as long
as any element passing both tests forces the new document to pass the
second. -/
theorem find?_isSome_replace_one (p q : α → Bool) (doc : α) {l : List α}
    (himp : ∀ x, p x = true → q x = true → q doc = true)
    (h : (l.find? q).isSome) : ((replace_one p doc l).find? q).isSome := by
  induction l with
  | nil => simp at h
  | cons x xs ih =>
    by_cases hp : p x = true
    · simp only [replace_one, if_pos hp]
      by_cases hq : q x = true
      · simp [List.find?_cons_of_pos _ (himp x hp hq)]
      · rw [List.find?_cons_of_neg _ hq] at h
        by_cases hqd : q doc = true
        · simp [List.find?_cons_of_pos _ hqd]
        · rw [List.find?_cons_of_neg _ hqd]
          exact h
    · simp only [replace_one, if_neg hp]
      by_cases hq : q x = true
      · simp [List.find?_cons_of_pos _ hq]
      · rw [List.find?_cons_of_neg _ hq] at h ⊢
        exact ih h

end ListLemmas

/-! ### Claim C1: fresh cache hit -/

/-- C1: for every key, if the stored record (found by key) satisfies the
freshness predicate `now - updated_at < ttl` (1 hour for `get_weather`,
6 hours for `get_soil_data`), the call returns that stored payload, invokes
the external fetcher zero times, and leaves the store exactly unchanged. -/
theorem c1_fresh_cache_hit :
    (∀ (city : String) (now : Int) (fetched : Option RawWeather)
        (weather : List WeatherData) (r : WeatherData),
        weather.find? (fun x => x.city == city) = some r →
        now - r.updated_at < weatherTTL →
        get_weather city now fetched weather = (.ok r, weather, 0)) ∧
    (∀ (polygon_id : String) (now : Int) (fetched : Option RawSoil)
        (soil : List SoilData) (r : SoilData),
        soil.find? (fun x => x.polygon_id == polygon_id) = some r →
        now - r.updated_at < soilTTL →
        get_soil_data polygon_id now fetched soil = (.ok r, soil, 0)) := by
  constructor
  · intro city now fetched weather r h hfresh
    have hfind : weather.find?
        (fun x => x.city == city && decide (now - weatherTTL ≤ x.updated_at))
        = some r :=
      find?_and_of_find? _ _ h (by simp; omega)
    simp only [get_weather, get_weather_try, hfind]
  · intro polygon_id now fetched soil r h hfresh
    have hfind : soil.find?
        (fun x => x.polygon_id == polygon_id && decide (now - soilTTL ≤ x.updated_at))
        = some r :=
      find?_and_of_find? _ _ h (by simp; omega)
    simp only [get_soil_data, get_soil_data_try, hfind]

/-- Witness for C1 at concrete inputs: a record 50 seconds old (strictly
within both TTLs) is served from the cache with no fetch and no write. -/
theorem c1_fresh_cache_hit_witness :
    get_weather "Delhi" 100 none
        [{ city := "Delhi", current := [("temp", "30")], forecast := [], updated_at := 50 }]
      = (.ok { city := "Delhi", current := [("temp", "30")], forecast := [], updated_at := 50 },
         [{ city := "Delhi", current := [("temp", "30")], forecast := [], updated_at := 50 }], 0) ∧
    get_soil_data "poly1" 100 none
        [{ polygon_id := "poly1", temperature_surface := 20, temperature_10cm := 19,
           moisture := 0.25, ph := 6.5, updated_at := 50 }]
      = (.ok { polygon_id := "poly1", temperature_surface := 20, temperature_10cm := 19,
               moisture := 0.25, ph := 6.5, updated_at := 50 },
         [{ polygon_id := "poly1", temperature_surface := 20, temperature_10cm := 19,
            moisture := 0.25, ph := 6.5, updated_at := 50 }], 0) :=
  ⟨c1_fresh_cache_hit.1 "Delhi" 100 none _ _ rfl (by decide),
   c1_fresh_cache_hit.2 "poly1" 100 none _ _ rfl (by decide)⟩

/-! ### Claim C2: no write when the fetcher fails -/

/-- C2: for every key, when no fresh record exists (the cache lookup with
the freshness filter finds nothing) and the external fetcher fails (empty
result, which is what the fetch helpers return on any provider error or
malformed response), the handler writes nothing: the resulting store is
exactly the store before the call (the response is the error path). -/
theorem c2_no_write_on_fetch_failure :
    (∀ (city : String) (now : Int) (weather : List WeatherData),
        weather.find?
          (fun x => x.city == city && decide (now - weatherTTL ≤ x.updated_at)) = none →
        get_weather city now none weather
          = (.httpError 500 "Failed to fetch weather data", weather, 1)) ∧
    (∀ (polygon_id : String) (now : Int) (soil : List SoilData),
        soil.find?
          (fun x => x.polygon_id == polygon_id && decide (now - soilTTL ≤ x.updated_at)) = none →
        get_soil_data polygon_id now none soil
          = (.httpError 500 "Failed to fetch soil data", soil, 1)) := by
  constructor
  · intro city now weather hfind
    simp only [get_weather, get_weather_try, hfind]
  · intro polygon_id now soil hfind
    simp only [get_soil_data, get_soil_data_try, hfind]

/-- Witness for C2: a stale record (age 7200 s > 1 h; age 30000 s > 6 h)
with a failing fetcher leaves the store unchanged, for both collections. -/
theorem c2_no_write_on_fetch_failure_witness :
    get_weather "Delhi" 7200 none
        [{ city := "Delhi", current := [], forecast := [], updated_at := 0 }]
      = (.httpError 500 "Failed to fetch weather data",
         [{ city := "Delhi", current := [], forecast := [], updated_at := 0 }], 1) ∧
    get_soil_data "poly1" 30000 none
        [{ polygon_id := "poly1", temperature_surface := 20, temperature_10cm := 19,
           moisture := 0.25, ph := 6.5, updated_at := 0 }]
      = (.httpError 500 "Failed to fetch soil data",
         [{ polygon_id := "poly1", temperature_surface := 20, temperature_10cm := 19,
            moisture := 0.25, ph := 6.5, updated_at := 0 }], 1) :=
  ⟨c2_no_write_on_fetch_failure.1 "Delhi" 7200 _ rfl,
   c2_no_write_on_fetch_failure.2 "poly1" 30000 _ rfl⟩

/-! ### Claim C3: stale or absent record, successful fetch -/

/-- C3 counterexample: a stored record whose age is exactly the TTL
(3600 s), which the claim counts as stale (`t1 - t0 >= ttl`), does not
trigger a fetch: even with a succeeding fetcher the handler performs zero
fetcher invocations, returns the old payload, and leaves `updated_at` at
its old value, because the cache filter `updated_at >= now - ttl` accepts
the record. -/
theorem c3_boundary_counterexample :
    ¬ ((3600 : Int) - 0 < weatherTTL) ∧
    get_weather "Mumbai" 3600
        (some { currentConditions := [("conditions", "clear")],
                days := [[("temp", "28")]] })
        [{ city := "Mumbai", current := [("old", "payload")], forecast := [],
           updated_at := 0 }]
      = (.ok { city := "Mumbai", current := [("old", "payload")], forecast := [],
               updated_at := 0 },
         [{ city := "Mumbai", current := [("old", "payload")], forecast := [],
            updated_at := 0 }], 0) :=
  ⟨by decide, rfl⟩

/-- C3 (amended: a record is only re-fetched once its age strictly exceeds
the TTL, or no record for the key exists): if every stored record for the
key is strictly older than the TTL (in particular if there is none) and the
fetcher succeeds, the handler invokes the fetcher exactly once, upserts a
document built solely from the fetched payload with `updated_at = now`
(full replacement: no field of the prior record is consulted), returns that
new payload, and the upserted document is what a subsequent lookup by key
finds. -/
theorem c3_stale_refetch_full_replace :
    (∀ (city : String) (now : Int) (w : RawWeather) (weather : List WeatherData),
        (∀ x ∈ weather, x.city = city → weatherTTL < now - x.updated_at) →
        get_weather city now (some w) weather
          = (.ok { city := city, current := w.currentConditions,
                   forecast := w.days.take 7, updated_at := now },
             replace_one (fun x => x.city == city)
               { city := city, current := w.currentConditions,
                 forecast := w.days.take 7, updated_at := now } weather, 1) ∧
        (replace_one (fun x => x.city == city)
            { city := city, current := w.currentConditions,
              forecast := w.days.take 7, updated_at := now } weather).find?
            (fun x => x.city == city)
          = some { city := city, current := w.currentConditions,
                   forecast := w.days.take 7, updated_at := now }) ∧
    (∀ (polygon_id : String) (now : Int) (w : RawSoil) (soil : List SoilData),
        (∀ x ∈ soil, x.polygon_id = polygon_id → soilTTL < now - x.updated_at) →
        get_soil_data polygon_id now (some w) soil
          = (.ok { polygon_id := polygon_id,
                   temperature_surface := w.t0.getD 300 - 273.15,
                   temperature_10cm := w.t10.getD 300 - 273.15,
                   moisture := w.moisture.getD 0.2, ph := 6.5, updated_at := now },
             replace_one (fun x => x.polygon_id == polygon_id)
               { polygon_id := polygon_id,
                 temperature_surface := w.t0.getD 300 - 273.15,
                 temperature_10cm := w.t10.getD 300 - 273.15,
                 moisture := w.moisture.getD 0.2, ph := 6.5, updated_at := now } soil, 1) ∧
        (replace_one (fun x => x.polygon_id == polygon_id)
            { polygon_id := polygon_id,
              temperature_surface := w.t0.getD 300 - 273.15,
              temperature_10cm := w.t10.getD 300 - 273.15,
              moisture := w.moisture.getD 0.2, ph := 6.5, updated_at := now } soil).find?
            (fun x => x.polygon_id == polygon_id)
          = some { polygon_id := polygon_id,
                   temperature_surface := w.t0.getD 300 - 273.15,
                   temperature_10cm := w.t10.getD 300 - 273.15,
                   moisture := w.moisture.getD 0.2, ph := 6.5, updated_at := now }) := by
  constructor
  · intro city now w weather hstale
    have hfind : weather.find?
        (fun x => x.city == city && decide (now - weatherTTL ≤ x.updated_at)) = none := by
      rw [List.find?_eq_none]
      intro x hx
      simp only [Bool.and_eq_true, beq_iff_eq, decide_eq_true_eq, not_and]
      intro hcity
      have := hstale x hx hcity
      omega
    refine ⟨?_, find?_replace_one _ _ _ _ (by simp) (fun x h => h)⟩
    simp only [get_weather, get_weather_try, hfind]
  · intro polygon_id now w soil hstale
    have hfind : soil.find?
        (fun x => x.polygon_id == polygon_id && decide (now - soilTTL ≤ x.updated_at)) = none := by
      rw [List.find?_eq_none]
      intro x hx
      simp only [Bool.and_eq_true, beq_iff_eq, decide_eq_true_eq, not_and]
      intro hpoly
      have := hstale x hx hpoly
      omega
    refine ⟨?_, find?_replace_one _ _ _ _ (by simp) (fun x h => h)⟩
    simp only [get_soil_data, get_soil_data_try, hfind]

/-- Witness for the amended C3: a weather record 7200 s old (strictly
stale) is fully replaced by the fetched payload, and a soil fetch into an
empty store creates the record, with one fetcher call each. -/
theorem c3_stale_refetch_full_replace_witness :
    (get_weather "Mumbai" 7200
        (some { currentConditions := [("conditions", "clear")],
                days := [[("temp", "28")]] })
        [{ city := "Mumbai", current := [("old", "payload")], forecast := [],
           updated_at := 0 }]
      = (.ok { city := "Mumbai", current := [("conditions", "clear")],
               forecast := [[("temp", "28")]], updated_at := 7200 },
         [{ city := "Mumbai", current := [("conditions", "clear")],
            forecast := [[("temp", "28")]], updated_at := 7200 }], 1) ∧
     ([{ city := "Mumbai", current := [("conditions", "clear")],
         forecast := [[("temp", "28")]], updated_at := 7200 }] : List WeatherData).find?
        (fun x => x.city == "Mumbai")
       = some ({ city := "Mumbai", current := [("conditions", "clear")],
                 forecast := [[("temp", "28")]], updated_at := 7200 } : WeatherData)) ∧
    (get_soil_data "poly9" 30000 (some { t0 := some 290, t10 := none, moisture := some 0.35 }) []
      = (.ok { polygon_id := "poly9", temperature_surface := (290 : ℚ) - 273.15,
               temperature_10cm := (300 : ℚ) - 273.15, moisture := 0.35, ph := 6.5,
               updated_at := 30000 },
         [{ polygon_id := "poly9", temperature_surface := (290 : ℚ) - 273.15,
            temperature_10cm := (300 : ℚ) - 273.15, moisture := 0.35, ph := 6.5,
            updated_at := 30000 }], 1) ∧
     ([{ polygon_id := "poly9", temperature_surface := (290 : ℚ) - 273.15,
         temperature_10cm := (300 : ℚ) - 273.15, moisture := 0.35, ph := 6.5,
         updated_at := 30000 }] : List SoilData).find? (fun x => x.polygon_id == "poly9")
       = some ({ polygon_id := "poly9", temperature_surface := (290 : ℚ) - 273.15,
                 temperature_10cm := (300 : ℚ) - 273.15, moisture := 0.35, ph := 6.5,
                 updated_at := 30000 } : SoilData)) := by
  constructor
  · have h := c3_stale_refetch_full_replace.1 "Mumbai" 7200
      ({ currentConditions := [("conditions", "clear")], days := [[("temp", "28")]] } : RawWeather)
      ([{ city := "Mumbai", current := [("old", "payload")], forecast := [],
          updated_at := 0 }] : List WeatherData) (by decide)
    exact h
  · have h := c3_stale_refetch_full_replace.2 "poly9" 30000
      ({ t0 := some 290, t10 := none, moisture := some 0.35 } : RawSoil)
      ([] : List SoilData) (by simp)
    exact h

/-! ### Claim C4: the freshness predicate -/

/-- C4 counterexample: for both collections, a record whose age equals the
TTL exactly does not satisfy the claim's strict freshness predicate
(`now - updated_at < ttl` is false), yet the handler serves it from the
cache with zero fetcher invocations and no write — so "age equals TTL"
does not trigger a re-fetch.  (The Mongo filter is
`updated_at >= now - ttl`, i.e. fresh means age **≤** TTL.) -/
theorem c4_ttl_boundary_counterexample :
    ¬ ((3600 : Int) - 0 < weatherTTL) ∧
    get_weather "Delhi" 3600 none
        [{ city := "Delhi", current := [], forecast := [], updated_at := 0 }]
      = (.ok { city := "Delhi", current := [], forecast := [], updated_at := 0 },
         [{ city := "Delhi", current := [], forecast := [], updated_at := 0 }], 0) ∧
    ¬ ((21600 : Int) - 0 < soilTTL) ∧
    get_soil_data "poly1" 21600 none
        [{ polygon_id := "poly1", temperature_surface := 20, temperature_10cm := 19,
           moisture := 0.25, ph := 6.5, updated_at := 0 }]
      = (.ok { polygon_id := "poly1", temperature_surface := 20, temperature_10cm := 19,
               moisture := 0.25, ph := 6.5, updated_at := 0 },
         [{ polygon_id := "poly1", temperature_surface := 20, temperature_10cm := 19,
            moisture := 0.25, ph := 6.5, updated_at := 0 }], 0) :=
  ⟨by decide, rfl, by decide, rfl⟩

/-- C4 (amended: a cached record is treated as fresh — served from the
cache with no fetch and no write — if and only if `now - updated_at ≤ TTL`;
a record whose age equals the TTL exactly is still fresh): stated for the
record found by key in the store. -/
theorem c4_freshness_iff :
    (∀ (city : String) (now : Int) (fetched : Option RawWeather)
        (weather : List WeatherData) (r : WeatherData),
        weather.find? (fun x => x.city == city) = some r →
        (get_weather city now fetched weather = (.ok r, weather, 0) ↔
          now - r.updated_at ≤ weatherTTL)) ∧
    (∀ (polygon_id : String) (now : Int) (fetched : Option RawSoil)
        (soil : List SoilData) (r : SoilData),
        soil.find? (fun x => x.polygon_id == polygon_id) = some r →
        (get_soil_data polygon_id now fetched soil = (.ok r, soil, 0) ↔
          now - r.updated_at ≤ soilTTL)) := by
  constructor
  · intro city now fetched weather r h
    constructor
    · intro heq
      rcases hfind : weather.find?
          (fun x => x.city == city && decide (now - weatherTTL ≤ x.updated_at))
        with _ | cached
      · exfalso
        simp only [get_weather, get_weather_try, hfind] at heq
        cases fetched <;> simp at heq
      · have hpred := List.find?_some hfind
        simp only [get_weather, get_weather_try, hfind] at heq
        simp only [Prod.mk.injEq, Resp.ok.injEq] at heq
        obtain ⟨rfl, -⟩ := heq
        simp only [Bool.and_eq_true, decide_eq_true_eq] at hpred
        omega
    · intro hle
      have hfind : weather.find?
          (fun x => x.city == city && decide (now - weatherTTL ≤ x.updated_at))
          = some r :=
        find?_and_of_find? _ _ h (by simp only [decide_eq_true_eq]; omega)
      simp only [get_weather, get_weather_try, hfind]
  · intro polygon_id now fetched soil r h
    constructor
    · intro heq
      rcases hfind : soil.find?
          (fun x => x.polygon_id == polygon_id && decide (now - soilTTL ≤ x.updated_at))
        with _ | cached
      · exfalso
        simp only [get_soil_data, get_soil_data_try, hfind] at heq
        cases fetched <;> simp at heq
      · have hpred := List.find?_some hfind
        simp only [get_soil_data, get_soil_data_try, hfind] at heq
        simp only [Prod.mk.injEq, Resp.ok.injEq] at heq
        obtain ⟨rfl, -⟩ := heq
        simp only [Bool.and_eq_true, decide_eq_true_eq] at hpred
        omega
    · intro hle
      have hfind : soil.find?
          (fun x => x.polygon_id == polygon_id && decide (now - soilTTL ≤ x.updated_at))
          = some r :=
        find?_and_of_find? _ _ h (by simp only [decide_eq_true_eq]; omega)
      simp only [get_soil_data, get_soil_data_try, hfind]

/-- Witness for the amended C4 at concrete inputs (age exactly the TTL on
the weather side; age one second past the TTL on the soil side). -/
theorem c4_freshness_iff_witness :
    (get_weather "Delhi" 3600 none
        [{ city := "Delhi", current := [], forecast := [], updated_at := 0 }]
      = (.ok { city := "Delhi", current := [], forecast := [], updated_at := 0 },
         [{ city := "Delhi", current := [], forecast := [], updated_at := 0 }], 0) ↔
      (3600 : Int) - 0 ≤ weatherTTL) ∧
    (get_soil_data "poly1" 21601 none
        [{ polygon_id := "poly1", temperature_surface := 20, temperature_10cm := 19,
           moisture := 0.25, ph := 6.5, updated_at := 0 }]
      = (.ok { polygon_id := "poly1", temperature_surface := 20, temperature_10cm := 19,
               moisture := 0.25, ph := 6.5, updated_at := 0 },
         [{ polygon_id := "poly1", temperature_surface := 20, temperature_10cm := 19,
            moisture := 0.25, ph := 6.5, updated_at := 0 }], 0) ↔
      (21601 : Int) - 0 ≤ soilTTL) :=
  ⟨c4_freshness_iff.1 "Delhi" 3600 none _ _ rfl,
   c4_freshness_iff.2 "poly1" 21601 none _ _ rfl⟩

/-! ### Claim C5: outcome when the fetch fails and no fresh record exists -/

/-- C5 (code bug): the `try` body of each handler does raise the intended
`HTTPException(404, "... not found")` when the fetcher fails and no fresh
record exists — but FastAPI's `HTTPException` subclasses `Exception`, so the
handler's own blanket `except Exception` clause catches that 404 and
re-raises `HTTPException(500, ...)`.  The observable response is therefore
500, not the 404 the claim states.  The rest of the claim holds: the
outcome is identical whether a stale record exists or no record exists at
all, and the stale payload is never returned. -/
theorem c5_fetch_failure_returns_500 :
    get_weather "Delhi" 7200 none []
      = (.httpError 500 "Failed to fetch weather data", [], 1) ∧
    (get_weather_try "Delhi" 7200 none []).1
      = .httpError 404 "Weather data not found" ∧
    get_weather "Delhi" 7200 none
        [{ city := "Delhi", current := [("old", "payload")], forecast := [],
           updated_at := 0 }]
      = (.httpError 500 "Failed to fetch weather data",
         [{ city := "Delhi", current := [("old", "payload")], forecast := [],
            updated_at := 0 }], 1) ∧
    get_soil_data "poly1" 30000 none []
      = (.httpError 500 "Failed to fetch soil data", [], 1) ∧
    (get_soil_data_try "poly1" 30000 none []).1
      = .httpError 404 "Soil data not found" ∧
    get_soil_data "poly1" 30000 none
        [{ polygon_id := "poly1", temperature_surface := 20, temperature_10cm := 19,
           moisture := 0.25, ph := 6.5, updated_at := 0 }]
      = (.httpError 500 "Failed to fetch soil data",
         [{ polygon_id := "poly1", temperature_surface := 20, temperature_10cm := 19,
            moisture := 0.25, ph := 6.5, updated_at := 0 }], 1) :=
  ⟨rfl, rfl, rfl, rfl, rfl, rfl⟩

/-! ### Sequences of calls, key uniqueness, timestamp monotonicity -/

/-- The weather collection after one `get_weather` call described by a
(city, time, fetch result) triple. -/
def weatherStep (weather : List WeatherData)
    (op : String × Int × Option RawWeather) : List WeatherData :=
  (get_weather op.1 op.2.1 op.2.2 weather).2.1

/-- The weather collection after a sequence of `get_weather` calls. -/
def runWeather (ops : List (String × Int × Option RawWeather))
    (weather : List WeatherData) : List WeatherData :=
  ops.foldl weatherStep weather

/-- The soil collection after one `get_soil_data` call. -/
def soilStep (soil : List SoilData)
    (op : String × Int × Option RawSoil) : List SoilData :=
  (get_soil_data op.1 op.2.1 op.2.2 soil).2.1

/-- The soil collection after a sequence of `get_soil_data` calls. -/
def runSoil (ops : List (String × Int × Option RawSoil))
    (soil : List SoilData) : List SoilData :=
  ops.foldl soilStep soil

/-- Invariant: at most one weather record per city. -/
def wUnique (weather : List WeatherData) : Prop :=
  weather.Pairwise (fun a b => a.city ≠ b.city)

/-- Invariant: at most one soil record per polygon id. -/
def sUnique (soil : List SoilData) : Prop :=
  soil.Pairwise (fun a b => a.polygon_id ≠ b.polygon_id)

/-- A `get_weather` call either leaves the weather collection unchanged, or
(on a cache miss with a successful fetch) upserts the document built from
the fetched payload. -/
theorem get_weather_store_cases (city : String) (now : Int)
    (fetched : Option RawWeather) (weather : List WeatherData) :
    (get_weather city now fetched weather).2.1 = weather ∨
    ∃ w : RawWeather, fetched = some w ∧
      weather.find?
        (fun x => x.city == city && decide (now - weatherTTL ≤ x.updated_at)) = none ∧
      (get_weather city now fetched weather).2.1
        = replace_one (fun x => x.city == city)
            { city := city, current := w.currentConditions,
              forecast := w.days.take 7, updated_at := now } weather := by
  rcases hfind : weather.find?
      (fun x => x.city == city && decide (now - weatherTTL ≤ x.updated_at))
    with _ | cached
  · cases fetched with
    | none => exact Or.inl (by simp only [get_weather, get_weather_try, hfind])
    | some w =>
      exact Or.inr ⟨w, rfl, hfind, by simp only [get_weather, get_weather_try, hfind]⟩
  · exact Or.inl (by simp only [get_weather, get_weather_try, hfind])

/-- A `get_soil_data` call either leaves the soil collection unchanged, or
upserts the document built from the fetched payload. -/
theorem get_soil_data_store_cases (polygon_id : String) (now : Int)
    (fetched : Option RawSoil) (soil : List SoilData) :
    (get_soil_data polygon_id now fetched soil).2.1 = soil ∨
    ∃ w : RawSoil, fetched = some w ∧
      soil.find?
        (fun x => x.polygon_id == polygon_id && decide (now - soilTTL ≤ x.updated_at)) = none ∧
      (get_soil_data polygon_id now fetched soil).2.1
        = replace_one (fun x => x.polygon_id == polygon_id)
            { polygon_id := polygon_id,
              temperature_surface := w.t0.getD 300 - 273.15,
              temperature_10cm := w.t10.getD 300 - 273.15,
              moisture := w.moisture.getD 0.2, ph := 6.5, updated_at := now } soil := by
  rcases hfind : soil.find?
      (fun x => x.polygon_id == polygon_id && decide (now - soilTTL ≤ x.updated_at))
    with _ | cached
  · cases fetched with
    | none => exact Or.inl (by simp only [get_soil_data, get_soil_data_try, hfind])
    | some w =>
      exact Or.inr ⟨w, rfl, hfind, by simp only [get_soil_data, get_soil_data_try, hfind]⟩
  · exact Or.inl (by simp only [get_soil_data, get_soil_data_try, hfind])

/-- One `get_weather` call preserves at-most-one-record-per-city. -/
theorem wUnique_weatherStep (op : String × Int × Option RawWeather)
    {weather : List WeatherData} (h : wUnique weather) :
    wUnique (weatherStep weather op) := by
  rcases get_weather_store_cases op.1 op.2.1 op.2.2 weather with hcase | ⟨w, -, -, hcase⟩
  · unfold weatherStep
    rw [hcase]
    exact h
  · unfold weatherStep
    rw [hcase]
    unfold wUnique at h ⊢
    exact pairwise_key_replace_one (fun x : WeatherData => x.city) op.1 _ rfl h

/-- One `get_soil_data` call preserves at-most-one-record-per-polygon. -/
theorem sUnique_soilStep (op : String × Int × Option RawSoil)
    {soil : List SoilData} (h : sUnique soil) :
    sUnique (soilStep soil op) := by
  rcases get_soil_data_store_cases op.1 op.2.1 op.2.2 soil with hcase | ⟨w, -, -, hcase⟩
  · unfold soilStep
    rw [hcase]
    exact h
  · unfold soilStep
    rw [hcase]
    unfold sUnique at h ⊢
    exact pairwise_key_replace_one (fun x : SoilData => x.polygon_id) op.1 _ rfl h

/-! ### Claim C6: at most one record per key -/

/-- C6: starting from a store with at most one record per key, any sequence
of `get_weather` (resp. `get_soil_data`) calls preserves that invariant: a
write for an existing key replaces the record instead of inserting a
duplicate. -/
theorem c6_at_most_one_record_per_key :
    (∀ (ops : List (String × Int × Option RawWeather)) (weather : List WeatherData),
        wUnique weather → wUnique (runWeather ops weather)) ∧
    (∀ (ops : List (String × Int × Option RawSoil)) (soil : List SoilData),
        sUnique soil → sUnique (runSoil ops soil)) := by
  constructor
  · intro ops
    induction ops with
    | nil => exact fun weather h => h
    | cons op ops ih =>
      intro weather h
      simp only [runWeather, List.foldl_cons]
      exact ih _ (wUnique_weatherStep op h)
  · intro ops
    induction ops with
    | nil => exact fun soil h => h
    | cons op ops ih =>
      intro soil h
      simp only [runSoil, List.foldl_cons]
      exact ih _ (sUnique_soilStep op h)

/-- Witness for C6: a refreshing call over a one-record store keeps a single
record per key in both collections. -/
theorem c6_at_most_one_record_per_key_witness :
    wUnique (runWeather
      [("Delhi", 7200, some { currentConditions := [("c", "v")], days := [] })]
      [{ city := "Delhi", current := [], forecast := [], updated_at := 0 }]) ∧
    sUnique (runSoil
      [("poly1", 30000, some { t0 := none, t10 := none, moisture := none })]
      [{ polygon_id := "poly1", temperature_surface := 20, temperature_10cm := 19,
         moisture := 0.25, ph := 6.5, updated_at := 0 }]) :=
  ⟨c6_at_most_one_record_per_key.1 _ _ (by simp [wUnique]),
   c6_at_most_one_record_per_key.2 _ _ (by simp [sUnique])⟩

/-- One `get_weather` call never decreases the `updated_at` of the record
found for any city: a write only happens after the freshness lookup failed,
so every overwritten record is strictly older than the new timestamp. -/
theorem weatherStep_updated_at_mono (op : String × Int × Option RawWeather)
    {weather : List WeatherData} {city : String} {r r' : WeatherData}
    (h : weather.find? (fun x => x.city == city) = some r)
    (h' : (weatherStep weather op).find? (fun x => x.city == city) = some r') :
    r.updated_at ≤ r'.updated_at := by
  rcases get_weather_store_cases op.1 op.2.1 op.2.2 weather with hcase | ⟨w, -, hnone, hcase⟩
  · unfold weatherStep at h'
    rw [hcase, h] at h'
    injection h' with h'
    rw [h']
  · unfold weatherStep at h'
    rw [hcase] at h'
    refine find?_key_mono_replace_one (fun x : WeatherData => x.city)
      (fun x : WeatherData => x.updated_at) op.1 city _ rfl ?_ h h'
    intro x hx hxk
    have hnx := List.find?_eq_none.mp hnone x hx
    simp only [Bool.and_eq_true, beq_iff_eq, decide_eq_true_eq, not_and] at hnx
    have h2 := hnx hxk
    have ht : weatherTTL = 3600 := rfl
    show x.updated_at ≤ op.2.1
    omega

/-- One `get_soil_data` call never decreases the `updated_at` of the record
found for any polygon id. -/
theorem soilStep_updated_at_mono (op : String × Int × Option RawSoil)
    {soil : List SoilData} {polygon_id : String} {r r' : SoilData}
    (h : soil.find? (fun x => x.polygon_id == polygon_id) = some r)
    (h' : (soilStep soil op).find? (fun x => x.polygon_id == polygon_id) = some r') :
    r.updated_at ≤ r'.updated_at := by
  rcases get_soil_data_store_cases op.1 op.2.1 op.2.2 soil with hcase | ⟨w, -, hnone, hcase⟩
  · unfold soilStep at h'
    rw [hcase, h] at h'
    injection h' with h'
    rw [h']
  · unfold soilStep at h'
    rw [hcase] at h'
    refine find?_key_mono_replace_one (fun x : SoilData => x.polygon_id)
      (fun x : SoilData => x.updated_at) op.1 polygon_id _ rfl ?_ h h'
    intro x hx hxk
    have hnx := List.find?_eq_none.mp hnone x hx
    simp only [Bool.and_eq_true, beq_iff_eq, decide_eq_true_eq, not_and] at hnx
    have h2 := hnx hxk
    have ht : soilTTL = 21600 := rfl
    show x.updated_at ≤ op.2.1
    omega

/-- A weather record findable by city stays findable across a call: an
upsert replaces the record for its own key but never removes it. -/
theorem weatherStep_find?_isSome (op : String × Int × Option RawWeather)
    {weather : List WeatherData} {city : String}
    (h : (weather.find? (fun x => x.city == city)).isSome) :
    ((weatherStep weather op).find? (fun x => x.city == city)).isSome := by
  rcases get_weather_store_cases op.1 op.2.1 op.2.2 weather with hcase | ⟨w, -, -, hcase⟩
  · unfold weatherStep
    rw [hcase]
    exact h
  · unfold weatherStep
    rw [hcase]
    refine find?_isSome_replace_one _ _ _ ?_ h
    intro x hp hq
    simp only [beq_iff_eq] at hp hq ⊢
    rw [← hp, hq]

/-- A soil record findable by polygon id stays findable across a call. -/
theorem soilStep_find?_isSome (op : String × Int × Option RawSoil)
    {soil : List SoilData} {polygon_id : String}
    (h : (soil.find? (fun x => x.polygon_id == polygon_id)).isSome) :
    ((soilStep soil op).find? (fun x => x.polygon_id == polygon_id)).isSome := by
  rcases get_soil_data_store_cases op.1 op.2.1 op.2.2 soil with hcase | ⟨w, -, -, hcase⟩
  · unfold soilStep
    rw [hcase]
    exact h
  · unfold soilStep
    rw [hcase]
    refine find?_isSome_replace_one _ _ _ ?_ h
    intro x hp hq
    simp only [beq_iff_eq] at hp hq ⊢
    rw [← hp, hq]

/-! ### Claim C7: `updated_at` is monotonically non-decreasing -/

/-- C7: for every key, across any sequence of `get_weather` (resp.
`get_soil_data`) calls, the `updated_at` of the stored record for that key
never decreases: every successful re-fetch writes a timestamp at least as
large as the one it replaces. -/
theorem c7_updated_at_monotone :
    (∀ (ops : List (String × Int × Option RawWeather)) (weather : List WeatherData)
        (city : String) (r r' : WeatherData),
        weather.find? (fun x => x.city == city) = some r →
        (runWeather ops weather).find? (fun x => x.city == city) = some r' →
        r.updated_at ≤ r'.updated_at) ∧
    (∀ (ops : List (String × Int × Option RawSoil)) (soil : List SoilData)
        (polygon_id : String) (r r' : SoilData),
        soil.find? (fun x => x.polygon_id == polygon_id) = some r →
        (runSoil ops soil).find? (fun x => x.polygon_id == polygon_id) = some r' →
        r.updated_at ≤ r'.updated_at) := by
  constructor
  · intro ops
    induction ops with
    | nil =>
      intro weather city r r' h h'
      simp only [runWeather, List.foldl_nil] at h'
      rw [h] at h'
      injection h' with h'
      rw [h']
    | cons op ops ih =>
      intro weather city r r' h h'
      have h1 : ((weatherStep weather op).find? (fun x => x.city == city)).isSome :=
        weatherStep_find?_isSome op (by rw [h]; rfl)
      obtain ⟨r1, hr1⟩ := Option.isSome_iff_exists.mp h1
      refine le_trans (weatherStep_updated_at_mono op h hr1) (ih _ city r1 r' hr1 ?_)
      simpa only [runWeather, List.foldl_cons] using h'
  · intro ops
    induction ops with
    | nil =>
      intro soil polygon_id r r' h h'
      simp only [runSoil, List.foldl_nil] at h'
      rw [h] at h'
      injection h' with h'
      rw [h']
    | cons op ops ih =>
      intro soil polygon_id r r' h h'
      have h1 : ((soilStep soil op).find? (fun x => x.polygon_id == polygon_id)).isSome :=
        soilStep_find?_isSome op (by rw [h]; rfl)
      obtain ⟨r1, hr1⟩ := Option.isSome_iff_exists.mp h1
      refine le_trans (soilStep_updated_at_mono op h hr1) (ih _ polygon_id r1 r' hr1 ?_)
      simpa only [runSoil, List.foldl_cons] using h'

/-- Witness for C7: a two-call sequence (one refreshing write, one cache
hit) over a one-record store, in each collection. -/
theorem c7_updated_at_monotone_witness :
    (0 : Int) ≤ (7200 : Int) ∧
    ((runWeather
        [("Delhi", 7200, some { currentConditions := [("c", "v")], days := [] }),
         ("Delhi", 7300, none)]
        [{ city := "Delhi", current := [], forecast := [], updated_at := 0 }]).find?
        (fun x => x.city == "Delhi")
      = some { city := "Delhi", current := [("c", "v")], forecast := [],
               updated_at := 7200 }) ∧
    ((0 : Int) ≤ 30000) ∧
    ((runSoil
        [("poly1", 30000, some { t0 := none, t10 := none, moisture := none })]
        [{ polygon_id := "poly1", temperature_surface := 20, temperature_10cm := 19,
           moisture := 0.25, ph := 6.5, updated_at := 0 }]).find?
        (fun x => x.polygon_id == "poly1")
      = some { polygon_id := "poly1", temperature_surface := (300 : ℚ) - 273.15,
               temperature_10cm := (300 : ℚ) - 273.15, moisture := 0.2, ph := 6.5,
               updated_at := 30000 }) :=
  ⟨c7_updated_at_monotone.1
      [("Delhi", 7200, some { currentConditions := [("c", "v")], days := [] }),
       ("Delhi", 7300, none)]
      [{ city := "Delhi", current := [], forecast := [], updated_at := 0 }]
      "Delhi" _ _ rfl rfl,
   rfl,
   c7_updated_at_monotone.2
      [("poly1", 30000, some { t0 := none, t10 := none, moisture := none })]
      [{ polygon_id := "poly1", temperature_surface := 20, temperature_10cm := 19,
         moisture := 0.25, ph := 6.5, updated_at := 0 }]
      "poly1" _ _ rfl rfl,
   rfl⟩

/-! ### Claim C8: two calls in immediate succession, one fetch -/

/-- C8: when a call finds no fresh record and fetches successfully (one
fetcher invocation, counter = 1), a second call for the same key whose time
is within the TTL of the first (in particular an immediate one) is served
from the cache: it makes zero fetcher invocations, returns the payload the
first call stored, and writes nothing — one fetch in total. -/
theorem c8_second_call_cache_hit :
    (∀ (city : String) (now now2 : Int) (w : RawWeather)
        (fetched2 : Option RawWeather) (weather : List WeatherData),
        weather.find?
          (fun x => x.city == city && decide (now - weatherTTL ≤ x.updated_at)) = none →
        now2 - now ≤ weatherTTL →
        (get_weather city now (some w) weather).2.2 = 1 ∧
        get_weather city now2 fetched2 (get_weather city now (some w) weather).2.1
          = (.ok { city := city, current := w.currentConditions,
                   forecast := w.days.take 7, updated_at := now },
             (get_weather city now (some w) weather).2.1, 0)) ∧
    (∀ (polygon_id : String) (now now2 : Int) (w : RawSoil)
        (fetched2 : Option RawSoil) (soil : List SoilData),
        soil.find?
          (fun x => x.polygon_id == polygon_id && decide (now - soilTTL ≤ x.updated_at)) = none →
        now2 - now ≤ soilTTL →
        (get_soil_data polygon_id now (some w) soil).2.2 = 1 ∧
        get_soil_data polygon_id now2 fetched2 (get_soil_data polygon_id now (some w) soil).2.1
          = (.ok { polygon_id := polygon_id,
                   temperature_surface := w.t0.getD 300 - 273.15,
                   temperature_10cm := w.t10.getD 300 - 273.15,
                   moisture := w.moisture.getD 0.2, ph := 6.5, updated_at := now },
             (get_soil_data polygon_id now (some w) soil).2.1, 0)) := by
  constructor
  · intro city now now2 w fetched2 weather hnone hsucc
    have hstore : (get_weather city now (some w) weather).2.1
        = replace_one (fun x => x.city == city)
            { city := city, current := w.currentConditions,
              forecast := w.days.take 7, updated_at := now } weather := by
      simp only [get_weather, get_weather_try, hnone]
    refine ⟨by simp only [get_weather, get_weather_try, hnone], ?_⟩
    generalize hs1 : (get_weather city now (some w) weather).2.1 = s1
    rw [hs1] at hstore
    have hfind2 : s1.find?
        (fun x => x.city == city && decide (now2 - weatherTTL ≤ x.updated_at))
        = some { city := city, current := w.currentConditions,
                 forecast := w.days.take 7, updated_at := now } := by
      rw [hstore]
      refine find?_replace_one _ _ _ _ ?_ ?_
      · simp only [Bool.and_eq_true, beq_iff_eq, decide_eq_true_eq]
        exact ⟨trivial, by omega⟩
      · intro x hx
        exact ((Bool.and_eq_true _ _).mp hx).1
    simp only [get_weather, get_weather_try, hfind2]
  · intro polygon_id now now2 w fetched2 soil hnone hsucc
    have hstore : (get_soil_data polygon_id now (some w) soil).2.1
        = replace_one (fun x => x.polygon_id == polygon_id)
            { polygon_id := polygon_id,
              temperature_surface := w.t0.getD 300 - 273.15,
              temperature_10cm := w.t10.getD 300 - 273.15,
              moisture := w.moisture.getD 0.2, ph := 6.5, updated_at := now } soil := by
      simp only [get_soil_data, get_soil_data_try, hnone]
    refine ⟨by simp only [get_soil_data, get_soil_data_try, hnone], ?_⟩
    generalize hs1 : (get_soil_data polygon_id now (some w) soil).2.1 = s1
    rw [hs1] at hstore
    have hfind2 : s1.find?
        (fun x => x.polygon_id == polygon_id && decide (now2 - soilTTL ≤ x.updated_at))
        = some { polygon_id := polygon_id,
                 temperature_surface := w.t0.getD 300 - 273.15,
                 temperature_10cm := w.t10.getD 300 - 273.15,
                 moisture := w.moisture.getD 0.2, ph := 6.5, updated_at := now } := by
      rw [hstore]
      refine find?_replace_one _ _ _ _ ?_ ?_
      · simp only [Bool.and_eq_true, beq_iff_eq, decide_eq_true_eq]
        exact ⟨trivial, by omega⟩
      · intro x hx
        exact ((Bool.and_eq_true _ _).mp hx).1
    simp only [get_soil_data, get_soil_data_try, hfind2]

/-- Witness for C8: first call at `now = 0` on an empty store fetches and
upserts; second call 10 seconds later is a cache hit, in each collection. -/
theorem c8_second_call_cache_hit_witness :
    ((get_weather "Delhi" 0 (some { currentConditions := [("c", "v")], days := [] }) []).2.2 = 1 ∧
     get_weather "Delhi" 10 none
        (get_weather "Delhi" 0 (some { currentConditions := [("c", "v")], days := [] }) []).2.1
       = (.ok { city := "Delhi", current := [("c", "v")],
                forecast := List.take 7 [], updated_at := 0 },
          (get_weather "Delhi" 0 (some { currentConditions := [("c", "v")], days := [] }) []).2.1,
          0)) ∧
    ((get_soil_data "poly1" 0 (some { t0 := some 290, t10 := none, moisture := some 0.35 }) []).2.2 = 1 ∧
     get_soil_data "poly1" 10 none
        (get_soil_data "poly1" 0 (some { t0 := some 290, t10 := none, moisture := some 0.35 }) []).2.1
       = (.ok { polygon_id := "poly1", temperature_surface := (290 : ℚ) - 273.15,
                temperature_10cm := (300 : ℚ) - 273.15, moisture := 0.35, ph := 6.5,
                updated_at := 0 },
          (get_soil_data "poly1" 0 (some { t0 := some 290, t10 := none, moisture := some 0.35 }) []).2.1,
          0)) :=
  ⟨c8_second_call_cache_hit.1 "Delhi" 0 10
      ({ currentConditions := [("c", "v")], days := [] } : RawWeather) none [] rfl (by decide),
   c8_second_call_cache_hit.2 "poly1" 0 10
      ({ t0 := some 290, t10 := none, moisture := some 0.35 } : RawSoil) none [] rfl (by decide)⟩

/-! ### Claim C9: default substitution in the recommendation path -/

/-- C9 counterexample: weather data that is non-empty and has a `"days"`
key mapping to the empty list *lacks a temperature reading*, yet the code
does not substitute the default 25: `weather_data["days"][0]` raises an
`IndexError` (modelled as `none`), whereas genuinely empty inputs produce
the default-based recommendations. -/
theorem c9_empty_days_counterexample :
    generate_crop_recommendations (some { days := some [] }) none "Delhi" = none ∧
    generate_crop_recommendations none none "Delhi"
      = some (recommendations_for 25 0.2) :=
  ⟨rfl, rfl⟩

/-- C9 (amended: the default temperature 25 is substituted when the weather
dict is empty, lacks the `"days"` key, or its first day lacks a `"temp"`
key; the default moisture 0.2 is substituted when the soil dict is empty or
lacks the `"moisture"` key; on empty inputs the function behaves exactly as
if the provider had reported temperature 25 and moisture 0.2 — but when the
`"days"` key is present and maps to an empty list, the code raises an
`IndexError` instead of substituting the default). -/
theorem c9_default_substitution :
    (∀ (soil_data : Option SoilDict) (location : String),
        generate_crop_recommendations none soil_data location
          = some (recommendations_for 25 (soil_moisture_of soil_data))) ∧
    (∀ (soil_data : Option SoilDict) (location : String),
        generate_crop_recommendations (some { days := none }) soil_data location
          = some (recommendations_for 25 (soil_moisture_of soil_data))) ∧
    (∀ (ds : List DayEntry) (soil_data : Option SoilDict) (location : String),
        generate_crop_recommendations (some { days := some ({ temp := none } :: ds) })
            soil_data location
          = some (recommendations_for 25 (soil_moisture_of soil_data))) ∧
    soil_moisture_of none = 0.2 ∧
    (∀ m : Option ℚ, soil_moisture_of (some { moisture := m }) = m.getD 0.2) ∧
    (∀ location : String,
        generate_crop_recommendations none none location
          = generate_crop_recommendations
              (some { days := some [{ temp := some 25 }] })
              (some { moisture := some 0.2 }) location) ∧
    (∀ (soil_data : Option SoilDict) (location : String),
        generate_crop_recommendations (some { days := some [] }) soil_data location
          = none) :=
  ⟨fun _ _ => rfl, fun _ _ => rfl, fun _ _ _ => rfl, rfl, fun _ => rfl,
   fun _ => rfl, fun _ _ => rfl⟩

/-! ### Claim C10: shape of the recommendation list -/

instance : IsTotal CropRecommendation confDesc :=
  ⟨fun a b => le_total b.confidence_score a.confidence_score⟩

instance : IsTrans CropRecommendation confDesc :=
  ⟨fun _ _ _ h1 h2 => le_trans h2 h1⟩

/-- The loop's confidence never drops below the base 0.7: each branch only
adds a non-negative bonus. -/
theorem cropConfidence_lb (t m : ℚ) (c : CropInfo) : 0.7 ≤ cropConfidence t m c := by
  unfold cropConfidence
  dsimp only
  split_ifs <;> norm_num

/-- Since every confidence exceeds the 0.6 threshold, the filter keeps one
recommendation per crop; the result is the whole table, sorted. -/
theorem recommendations_for_eq (t m : ℚ) :
    recommendations_for t m
      = List.insertionSort confDesc (crops_db.map (cropRec t m)) := by
  have h6 : ∀ c : CropInfo, cropConfidence t m c > 0.6 :=
    fun c => lt_of_lt_of_le (by norm_num) (cropConfidence_lb t m c)
  have hfun : (fun crop => if cropConfidence t m crop > 0.6 then
        some (cropRec t m crop) else none)
      = fun crop => some (cropRec t m crop) :=
    funext fun c => if_pos (h6 c)
  have hfm : crops_db.filterMap (fun crop => if cropConfidence t m crop > 0.6 then
        some (cropRec t m crop) else none)
      = crops_db.map (cropRec t m) := by
    rw [hfun]
    exact congrFun (List.filterMap_eq_map (cropRec t m)) crops_db
  unfold recommendations_for
  rw [hfm]
  refine List.take_of_length_le ?_
  rw [List.length_insertionSort, List.length_map]
  rfl

/-- C10: for every pair of numeric readings, the recommendation generator
returns exactly 5 recommendations — one per crop of the static table (the
base confidence 0.7 already exceeds the 0.6 inclusion threshold, so the
filter excludes nothing) — sorted by confidence score in non-increasing
order, with every stored confidence in the interval (0.6, 1]; consequently
the same holds of every list `generate_crop_recommendations` returns. -/
theorem c10_five_sorted_bounded :
    (∀ current_temp soil_moisture : ℚ,
        (recommendations_for current_temp soil_moisture).length = 5 ∧
        List.Perm
          ((recommendations_for current_temp soil_moisture).map (fun r => r.crop_name))
          (crops_db.map (fun c => c.name)) ∧
        (recommendations_for current_temp soil_moisture).Pairwise confDesc ∧
        (∀ r ∈ recommendations_for current_temp soil_moisture,
          0.6 < r.confidence_score ∧ r.confidence_score ≤ 1)) ∧
    (∀ (weather_data : Option WeatherDict) (soil_data : Option SoilDict)
        (location : String) (recs : List CropRecommendation),
        generate_crop_recommendations weather_data soil_data location = some recs →
        recs.length = 5 ∧ recs.Pairwise confDesc ∧
        ∀ r ∈ recs, 0.6 < r.confidence_score ∧ r.confidence_score ≤ 1) := by
  have main : ∀ current_temp soil_moisture : ℚ,
      (recommendations_for current_temp soil_moisture).length = 5 ∧
      List.Perm
        ((recommendations_for current_temp soil_moisture).map (fun r => r.crop_name))
        (crops_db.map (fun c => c.name)) ∧
      (recommendations_for current_temp soil_moisture).Pairwise confDesc ∧
      (∀ r ∈ recommendations_for current_temp soil_moisture,
        0.6 < r.confidence_score ∧ r.confidence_score ≤ 1) := by
    intro t m
    rw [recommendations_for_eq]
    refine ⟨?_, ?_, ?_, ?_⟩
    · rw [List.length_insertionSort, List.length_map]
      rfl
    · have hp := (List.perm_insertionSort confDesc (crops_db.map (cropRec t m))).map
        (fun r => r.crop_name)
      have heq : (crops_db.map (cropRec t m)).map (fun r => r.crop_name)
          = crops_db.map (fun c => c.name) := rfl
      rw [heq] at hp
      exact hp
    · exact List.sorted_insertionSort confDesc (crops_db.map (cropRec t m))
    · intro r hr
      have hr2 : r ∈ crops_db.map (cropRec t m) :=
        (List.perm_insertionSort confDesc (crops_db.map (cropRec t m))).mem_iff.mp hr
      obtain ⟨c, -, rfl⟩ := List.mem_map.mp hr2
      constructor
      · exact lt_min (lt_of_lt_of_le (by norm_num) (cropConfidence_lb t m c)) (by norm_num)
      · exact min_le_right _ _
  refine ⟨main, ?_⟩
  intro weather_data soil_data location recs h
  rcases hct : current_temp_of weather_data with _ | t
  · rw [generate_crop_recommendations, hct] at h
    exact absurd h (by simp)
  · rw [generate_crop_recommendations, hct] at h
    injection h with h
    subst h
    obtain ⟨h1, -, h3, h4⟩ := main t (soil_moisture_of soil_data)
    exact ⟨h1, h3, h4⟩

/-- Witness for C10 applied through `generate_crop_recommendations` on
empty inputs (defaults 25 and 0.2). -/
theorem c10_five_sorted_bounded_witness :
    (recommendations_for 25 0.2).length = 5 ∧
    (recommendations_for 25 0.2).Pairwise confDesc :=
  ⟨(c10_five_sorted_bounded.2 none none "Delhi" _ rfl).1,
   (c10_five_sorted_bounded.2 none none "Delhi" _ rfl).2.1⟩

end KrishiMitra
